import Mathlib

/-!
Verification of the text-quality scoring engine of the LLM-Lab-Console
repository (src/app/lib/metrics.ts, duplicated in an unnamed module).

The engine is embedded shallowly: strings are Lean strings, JS numbers are
modelled as rationals where the source computation is exact rational
arithmetic, and as reals where the source uses transcendental functions
(Math.exp in the length-fit scorer, Math.log10 in the vocabulary scorer).
Regex-based text processing is modelled by explicit character scanners that
follow the JS regex semantics of the source.
-/

/-- A whitespace character in the sense of the JS regex class backslash-s
(restricted to the ASCII whitespace characters that occur in practice). -/
def isSpaceChar (c : Char) : Bool :=
  c = ' ' || c = '\t' || c = '\n' || c = '\r' || c = '\x0b' || c = '\x0c'

/-- Characters kept by the tokenizer replacement step: the JS regex
replaces every character outside the class a-z, 0-9, whitespace, hyphen
with a space. -/
def isKeepChar (c : Char) : Bool :=
  ('a' ≤ c && c ≤ 'z') || ('0' ≤ c && c ≤ '9') || isSpaceChar c || c = '-'

/-- Splits a character list at every character satisfying the predicate;
empty pieces are produced between adjacent separators (as JS split does). -/
def chunksByAux (p : Char → Bool) (cur : List Char) (acc : List (List Char)) :
    List Char → List (List Char)
  | [] => (cur.reverse :: acc).reverse
  | c :: rest =>
    if p c then chunksByAux p [] (cur.reverse :: acc) rest
    else chunksByAux p (c :: cur) acc rest

/-- Splits a character list on a separator predicate. -/
def chunksBy (p : Char → Bool) (l : List Char) : List (List Char) :=
  chunksByAux p [] [] l

/-- normalizeText from metrics.ts: lowercases the text. -/
def normalizeText (text : String) : List Char :=
  text.data.map Char.toLower

/-- tokenizeWords from metrics.ts: lowercase, replace every character
outside a-z0-9, whitespace and hyphen by a space, split on whitespace
runs, drop empty tokens. -/
def tokenizeWords (text : String) : List String :=
  let cleaned := (normalizeText text).map (fun c => if isKeepChar c then c else ' ')
  ((chunksBy isSpaceChar cleaned).filter (· ≠ [])).map (fun l => String.mk l)

/-- A sentence terminator in the sense of the lookbehind class [.!?]. -/
def isTerminator (c : Char) : Bool :=
  c = '.' || c = '!' || c = '?'

/-- Scanner mode for the sentence splitter: inside plain text, inside a
whitespace separator following a terminator, or inside a newline run. -/
inductive SentMode
  | text
  | wsSep
  | nlSep
deriving DecidableEq

/-- Scanner for the JS split on the regex alternation of a
terminator-lookbehind whitespace run and a newline run.  It walks the
characters once, tracking the previous character for the lookbehind and a
mode for the greedy separator runs; each separator occurrence ends the
current piece. -/
def sentAux : SentMode → Option Char → List Char → List (List Char) →
    List Char → List (List Char)
  | _, _, cur, acc, [] => (cur.reverse :: acc).reverse
  | SentMode.wsSep, _, _, acc, c :: rest =>
    if isSpaceChar c then sentAux SentMode.wsSep (some c) [] acc rest
    else sentAux SentMode.text (some c) [c] acc rest
  | SentMode.nlSep, _, _, acc, c :: rest =>
    if c = '\n' then sentAux SentMode.nlSep (some c) [] acc rest
    else sentAux SentMode.text (some c) [c] acc rest
  | SentMode.text, prev, cur, acc, c :: rest =>
    if (match prev with | some p => isTerminator p | none => false) && isSpaceChar c then
      sentAux SentMode.wsSep (some c) [] (cur.reverse :: acc) rest
    else if c = '\n' then
      sentAux SentMode.nlSep (some c) [] (cur.reverse :: acc) rest
    else
      sentAux SentMode.text (some c) (c :: cur) acc rest

/-- JS String.prototype.trim on a character list. -/
def trimChars (l : List Char) : List Char :=
  ((l.dropWhile isSpaceChar).reverse.dropWhile isSpaceChar).reverse

/-- sentences from metrics.ts: split on a sentence terminator followed by
whitespace, or on newline runs; trim and drop empties; fall back to the
whole trimmed text when nothing remains. -/
def sentences (text : String) : List String :=
  let s := ((sentAux SentMode.text none [] [] text.data).map
      (fun l => String.mk (trimChars l))).filter (· ≠ "")
  if s = [] then [String.mk (trimChars text.data)].filter (· ≠ "") else s

/-- jaccard from metrics.ts: intersection size over union size, with the
union size replaced by 1 when it is zero. -/
def jaccard (a b : Finset String) : ℚ :=
  let inter := (a ∩ b).card
  let uni := if (a ∪ b).card = 0 then 1 else (a ∪ b).card
  (inter : ℚ) / (uni : ℚ)

/-- STOPWORDS from metrics.ts. -/
def STOPWORDS : List String :=
  ["the", "a", "an", "and", "or", "of", "to", "in", "for", "on", "with",
   "is", "are", "be", "as", "by", "that", "this", "it", "you", "your",
   "we", "our", "at", "from", "how", "what", "why", "when", "where",
   "which", "but", "if", "then", "so", "than", "can", "could", "should",
   "would", "about", "into", "over", "under", "more", "most", "some",
   "any", "such", "no", "not", "only", "own", "same", "too", "very"]

/-- contentWords from metrics.ts: drop stopwords and tokens of length at
most 2. -/
def contentWords (words : List String) : List String :=
  words.filter (fun w => !STOPWORDS.contains w && w.length > 2)

/-- avg from metrics.ts: mean of a list, 0 for the empty list. -/
def avg (a : List ℚ) : ℚ :=
  if a = [] then 0 else a.sum / (a.length : ℚ)

/-- clamp01 from metrics.ts, generic over the number model. -/
def clamp01 {α : Type} [LinearOrder α] [Zero α] [One α] (x : α) : α :=
  max 0 (min 1 x)

/-- clamp0to100 from metrics.ts, on the integer model of the rounded
overall score. -/
def clamp0to100 (x : ℤ) : ℤ :=
  max 0 (min 100 x)

/-- Splits on newline characters, modelling the line-split regex of
extractRequirements. -/
def splitNl (l : List Char) : List (List Char) :=
  chunksBy (· = '\n') l

/-- Drops a single carriage return at the end of a line, so that splitNl
composed with this models the split on an optional carriage return
followed by a newline. -/
def stripCr (l : List Char) : List Char :=
  match l.reverse with
  | '\r' :: r => r.reverse
  | _ => l

/-- A line starting with a bullet marker followed by whitespace. -/
def isBulletLine (l : List Char) : Bool :=
  match l with
  | c :: d :: _ => (c = '-' || c = '*' || c = '•') && isSpaceChar d
  | _ => false

/-- A line starting with digits, a dot and whitespace (a numbered item). -/
def isNumberLine (l : List Char) : Bool :=
  let ds := l.takeWhile Char.isDigit
  decide (ds ≠ []) &&
    (match l.drop ds.length with
     | '.' :: e :: _ => isSpaceChar e
     | _ => false)

/-- Strips the bullet or number marker and the following whitespace run
from a line, modelling the replace call in extractRequirements. -/
def stripReqMarker (l : List Char) : List Char :=
  if isBulletLine l then (l.drop 1).dropWhile isSpaceChar
  else ((l.drop (l.takeWhile Char.isDigit).length).drop 1).dropWhile isSpaceChar

/-- The imperative verbs recognized at the start of a prompt line. -/
def impVerbs : List String :=
  ["write", "create", "explain", "compare", "list", "design", "implement",
   "show", "build", "summarize", "analyze", "evaluate", "provide",
   "outline", "generate"]

/-- A word character in the sense of the JS word-boundary assertion. -/
def isWordChar (c : Char) : Bool :=
  c.isAlphanum || c = '_'

/-- Tests whether a line starts, case-insensitively and at a word
boundary, with one of the imperative verbs. -/
def startsWithImperative (l : List Char) : Bool :=
  let low := l.map Char.toLower
  impVerbs.any (fun v =>
    decide (low.take v.length = v.data) &&
      (match low.drop v.length with
       | [] => true
       | c :: _ => !isWordChar c))

/-- extractRequirements from metrics.ts: split the prompt into trimmed
non-empty lines; record bullet or numbered items with their marker
stripped, and lines starting with an imperative verb; fall back to the
whole prompt when nothing was found. -/
def extractRequirements (prompt : String) : List String :=
  let lines := ((splitNl prompt.data).map (fun l => trimChars (stripCr l))).filter (· ≠ [])
  let reqs := lines.filterMap (fun line =>
    if isBulletLine line || isNumberLine line then
      some (String.mk (stripReqMarker line))
    else if startsWithImperative line then some (String.mk line)
    else none)
  if reqs = [] then [prompt] else reqs

/-- An ASCII lowercase letter. -/
def isLowerAZ (c : Char) : Bool :=
  'a' ≤ c && c ≤ 'z'

/-- A vowel letter for syllable counting, including y. -/
def isVowelY (c : Char) : Bool :=
  c = 'a' || c = 'e' || c = 'i' || c = 'o' || c = 'u' || c = 'y'

/-- Counts maximal runs of vowel letters; the flag records whether the
previous character was a vowel. -/
def vgAux : Bool → List Char → ℕ
  | _, [] => 0
  | inV, c :: rest =>
    if isVowelY c then (if inV then vgAux true rest else 1 + vgAux true rest)
    else vgAux false rest

/-- syllableCount from metrics.ts: keep only letters (lowercased), return
0 for an empty result, drop a single trailing e (the only place the
word-boundary of the removal regex can match in an all-letter string),
and count vowel runs with a minimum of 1. -/
def syllableCount (word : String) : ℕ :=
  let w := (word.data.map Char.toLower).filter isLowerAZ
  if w = [] then 0
  else
    let w2 := match w.reverse with
      | 'e' :: r => r.reverse
      | _ => w
    max 1 (vgAux false w2)

/-- fkGrade from metrics.ts: the Flesch-Kincaid grade from word count,
sentence count (both floored at 1) and total syllables. -/
def fkGradeOf (text : String) : ℚ :=
  let wordsArr := tokenizeWords text
  let words : ℕ := if wordsArr.length = 0 then 1 else wordsArr.length
  let sents : ℕ := if (sentences text).length = 0 then 1 else (sentences text).length
  let syllables : ℕ := (wordsArr.map syllableCount).sum
  0.39 * ((words : ℚ) / (sents : ℚ)) + 11.8 * ((syllables : ℚ) / (words : ℚ)) - 15.59

/-- readabilityScore from metrics.ts: distance of the grade from the
target band, clamped; returns the score together with the raw grade. -/
def readabilityScoreOf (text : String) : ℚ × ℚ :=
  let grade := fkGradeOf text
  let target : ℚ := 10
  let span : ℚ := 6
  let raw := 1 - min 1 (|grade - target| / span)
  (clamp01 raw, grade)

/-- Scanner for the paragraph split regex (newline, any whitespace,
newline).  A match starts at a newline whose following whitespace run
contains another newline; the greedy inner whitespace backtracks so the
match ends at the last newline of the run.  A skip counter consumes the
matched separator characters. -/
def paraAux : ℕ → List Char → List (List Char) → List Char → List (List Char)
  | _, cur, acc, [] => (cur.reverse :: acc).reverse
  | Nat.succ n, cur, acc, _ :: rest => paraAux n cur acc rest
  | 0, cur, acc, c :: rest =>
    if c = '\n' then
      let run := rest.takeWhile isSpaceChar
      if run.contains '\n' then
        let lastNl := run.length - 1 - run.reverse.findIdx (· = '\n')
        paraAux (lastNl + 1) [] (cur.reverse :: acc) rest
      else paraAux 0 ('\n' :: cur) acc rest
    else paraAux 0 (c :: cur) acc rest

/-- Paragraphs of a text: split on blank-line separators and drop empty
pieces, as the filter on the split does in the source. -/
def paragraphsOf (text : String) : List (List Char) :=
  (paraAux 0 [] [] text.data).filter (· ≠ [])

/-- Matches a bullet or numbered list marker followed by a whitespace run
and a non-whitespace character at the head of the character list,
returning the number of characters the regex match consumes. -/
def matchMarkerLen (l : List Char) : Option ℕ :=
  match l with
  | [] => none
  | c :: rest =>
    if c = '-' || c = '•' || c = '*' then
      let ws := rest.takeWhile isSpaceChar
      if decide (ws ≠ []) && decide (rest.drop ws.length ≠ []) then
        some (1 + ws.length + 1)
      else none
    else
      let ds := l.takeWhile Char.isDigit
      if decide (ds ≠ []) then
        match l.drop ds.length with
        | '.' :: r2 =>
          let ws := r2.takeWhile isSpaceChar
          if decide (ws ≠ []) && decide (r2.drop ws.length ≠ []) then
            some (ds.length + 1 + ws.length + 1)
          else none
        | _ => none
      else none

/-- Matches one to six hash characters followed by a whitespace run and a
non-whitespace character (a markdown heading). -/
def headingPat (l : List Char) : Bool :=
  let hs := l.takeWhile (· = '#')
  if 1 ≤ hs.length && hs.length ≤ 6 then
    let r := l.drop hs.length
    let ws := r.takeWhile isSpaceChar
    decide (ws ≠ []) && decide (r.drop ws.length ≠ [])
  else false

/-- The suffixes of the text that start immediately after a newline; line
starts for the anchored alternatives of the structure regexes. -/
def afterNewlines : List Char → List (List Char)
  | [] => []
  | c :: rest =>
    if c = '\n' then rest :: afterNewlines rest else afterNewlines rest

/-- hasHeadings test from the coherence scorer: some line start carries a
markdown heading, a numbered line, or a bulleted line. -/
def hasHeadings (text : String) : Bool :=
  (text.data :: afterNewlines text.data).any
    (fun s => headingPat s || (matchMarkerLen s).isSome)

/-- Scanner for the global count of list-marker matches, following the JS
global regex semantics: matched characters (the anchoring newline, the
marker, the whitespace run and one non-whitespace character) are consumed
and cannot anchor or form a later match; a skip counter consumes them. -/
def listScanAux : ℕ → Bool → List Char → ℕ
  | _, _, [] => 0
  | Nat.succ n, _, _ :: rest => listScanAux n false rest
  | 0, atStart, c :: rest =>
    if atStart then
      match matchMarkerLen (c :: rest) with
      | some k => 1 + listScanAux (k - 1) false rest
      | none =>
        if c = '\n' then
          match matchMarkerLen rest with
          | some k => 1 + listScanAux k false rest
          | none => listScanAux 0 false rest
        else listScanAux 0 false rest
    else
      if c = '\n' then
        match matchMarkerLen rest with
        | some k => 1 + listScanAux k false rest
        | none => listScanAux 0 false rest
      else listScanAux 0 false rest

/-- listLines count from the coherence scorer. -/
def listLinesCount (text : String) : ℕ :=
  listScanAux 0 true text.data

/-- The transition lexicon of the coherence scorer, verbatim from the
source, including the separate bare tokens for the word in and the word
conclusion. -/
def transLex : List String :=
  ["however", "therefore", "thus", "consequently", "furthermore",
   "moreover", "meanwhile", "nevertheless", "alternatively",
   "additionally", "similarly", "conversely", "instead", "accordingly",
   "finally", "first", "second", "third", "overall", "in", "conclusion",
   "next"]

/-- A sentence counts as a transition sentence when some of its word
tokens belongs to the transition lexicon. -/
def isTransitionSentence (s : String) : Bool :=
  (tokenizeWords s).any (fun t => transLex.contains t)

/-- The transition sentence count of the coherence scorer, written as the
fold of the source. -/
def transCount (sents : List String) : ℕ :=
  sents.foldl (fun acc s => acc + if isTransitionSentence s then 1 else 0) 0

/-- The transition score of the coherence scorer. -/
def transScoreOf (sents : List String) : ℚ :=
  min 1 ((transCount sents : ℚ) / max 1 ((sents.length : ℚ) - 1))

/-- calculateCoherenceScore from metrics.ts. -/
def calculateCoherenceScore (text : String) : ℚ :=
  let sents := sentences text
  if sents.length ≤ 1 then
    let tokens := (tokenizeWords text).length
    clamp01 (if tokens > 40 then (0.6 : ℚ) else 0.5)
  else
    let sims := (sents.zip sents.tail).map (fun ab =>
      jaccard (contentWords (tokenizeWords ab.1)).toFinset
        (contentWords (tokenizeWords ab.2)).toFinset)
    let mean := avg sims
    let variance := (sims.map (fun v => (v - mean) * (v - mean))).sum / (sims.length : ℚ)
    let stability := 1 - min 1 (variance * 3)
    let paragraphs := paragraphsOf text
    let avgSentPerPara : ℚ := (sents.length : ℚ) / (max 1 paragraphs.length : ℕ)
    let paraPenalty : ℚ :=
      if paragraphs.any (fun p => decide (p.length > 600) && !p.contains '\n') then 0.1 else 0
    let structureBonus : ℚ :=
      (if hasHeadings text then 0.12 else 0) +
        min 0.12 ((listLinesCount text : ℚ) * 0.02) +
        clamp01 (1 - |avgSentPerPara - 4| / 6) * 0.1
    let cohesion := clamp01
      (0.6 * mean + 0.2 * stability + 0.1 * transScoreOf sents + structureBonus)
    clamp01 (cohesion - paraPenalty)

/-- The length-fit target of calculateLengthScore: requirement count
capped at 10 (with an empty list counting as 1), scaled and clamped to
the band from 60 to 1200. -/
def lengthTarget (prompt : String) : ℚ :=
  let reqs := extractRequirements prompt
  let reqCount : ℚ := min 10 (if reqs.length = 0 then 1 else (reqs.length : ℚ))
  let base : ℚ := 100
  let perReq : ℚ := 60
  max 60 (min 1200 (base + perReq * reqCount))

/-- calculateLengthScore from metrics.ts: Gaussian fit of the response
word count against the target, a linear ramp under 40 words, a hard
under- and over-length penalty, and a structure bonus. -/
noncomputable def calculateLengthScore (text prompt : String) : ℝ :=
  let responseWords := (tokenizeWords text).length
  if responseWords = 0 then 0
  else
    let target := lengthTarget prompt
    let ratio : ℚ := (responseWords : ℚ) / target
    let sigma : ℚ := min 0.9 (0.28 + 0.0004 * target)
    let score0 : ℝ := Real.exp (-((ratio : ℝ) - 1) ^ 2 / (2 * (sigma : ℝ) ^ 2))
    let score1 : ℝ :=
      if responseWords < 40 then score0 * ((responseWords : ℝ) / 40) else score0
    let hardMin : ℤ := ⌊target * 0.5⌋
    let hardMax : ℤ := ⌈target * 1.8⌉
    let penalty : ℚ :=
      if (responseWords : ℤ) < hardMin then ((hardMin - responseWords : ℤ) : ℚ) / (hardMin : ℚ)
      else if (responseWords : ℤ) > hardMax then ((responseWords - hardMax : ℤ) : ℚ) / (hardMax : ℚ)
      else 0
    let sentCount := (sentences text).length
    let paraCount : ℕ := if (paragraphsOf text).length = 0 then 1 else (paragraphsOf text).length
    let structureBonus : ℚ := clamp01 ((sentCount : ℚ) / (paraCount : ℚ) / 6)
    clamp01 (score1 * ((1 - 0.6 * penalty : ℚ) : ℝ) * ((0.9 + 0.1 * structureBonus : ℚ) : ℝ))

/-- calculateVocabularyRichness from metrics.ts: type-token ratio and
hapax share over content words, blended toward a neutral baseline by a
logarithmic length damping. -/
noncomputable def calculateVocabularyRichness (text : String) : ℝ :=
  let tokens := tokenizeWords text
  let words := contentWords tokens
  let N := words.length
  if N = 0 then 0
  else
    let unique := words.toFinset.card
    let ttr : ℚ := (unique : ℚ) / (N : ℚ)
    let hapax : ℚ :=
      ((words.dedup.filter (fun w => words.count w = 1)).length : ℚ) / (max 1 unique : ℕ)
    let lengthDamp : ℝ := min 1 (Real.logb 10 ((N : ℝ) + 10) / 2)
    let base : ℚ := clamp01 (0.7 * ttr + 0.3 * hapax)
    clamp01 ((base : ℝ) * lengthDamp + 0.2 * (1 - lengthDamp))

/-- repetitionPenaltyScore from metrics.ts: 1 for texts of fewer than six
tokens, otherwise 1 minus the normalized count of repeated adjacent
bigrams. -/
def repetitionPenaltyScore (text : String) : ℚ :=
  let w := tokenizeWords text
  if w.length < 6 then 1
  else
    let bgs := (w.zip w.tail).map (fun ab => ab.1 ++ " " ++ ab.2)
    let repeats : ℕ := (bgs.dedup.map (fun b =>
      let c := bgs.count b
      if c > 1 then c - 1 else 0)).sum
    let penalty : ℚ := min 1 ((repeats : ℚ) / max 1 ((w.length : ℚ) / 12))
    1 - penalty

/-- Weights from metrics.ts. -/
structure Weights where
  coherence : ℚ
  length : ℚ
  vocab : ℚ
  repetition : ℚ
  readability : ℚ
deriving DecidableEq

/-- DEFAULT_WEIGHTS from metrics.ts. -/
def DEFAULT_WEIGHTS : Weights :=
  ⟨0.3, 0.2, 0.25, 0.1, 0.15⟩

/-- The caller-supplied partial weight map: each key may be present or
absent. -/
structure PartialWeights where
  coherence : Option ℚ
  length : Option ℚ
  vocab : Option ℚ
  repetition : Option ℚ
  readability : Option ℚ
deriving DecidableEq

/-- The empty partial weight map (no overrides). -/
def emptyWeights : PartialWeights :=
  ⟨none, none, none, none, none⟩

/-- The object-spread merge of the default weight table with the
caller-supplied overrides: a present key wins, an absent key keeps its
default. -/
def mergeWeights (ov : PartialWeights) : Weights :=
  { coherence := ov.coherence.getD DEFAULT_WEIGHTS.coherence
    length := ov.length.getD DEFAULT_WEIGHTS.length
    vocab := ov.vocab.getD DEFAULT_WEIGHTS.vocab
    repetition := ov.repetition.getD DEFAULT_WEIGHTS.repetition
    readability := ov.readability.getD DEFAULT_WEIGHTS.readability }

/-- The value stored under the requirements key of the diagnostics
record: the module under src stores the joined string, the duplicated
module stores the raw list. -/
inductive ReqDiag
  | str : String → ReqDiag
  | strList : List String → ReqDiag
deriving DecidableEq

/-- The diagnostics record of the metric result. -/
structure Details where
  sentenceCount : ℕ
  wordCount : ℕ
  requirements : ReqDiag
  fkGrade : ℚ
deriving DecidableEq

/-- ResponseMetrics: the result record of the scoring engine. -/
structure ResponseMetrics where
  coherenceScore : ℚ
  lengthScore : ℝ
  vocabularyRichnessScore : ℝ
  repetitionPenalty : ℚ
  readabilityScore : ℚ
  overallScore : ℤ
  details : Details

/-- JS Math.round: floor of the value plus one half. -/
noncomputable def jsRound (x : ℝ) : ℤ :=
  ⌊x + 1 / 2⌋

/-- calculateMetrics from src/app/lib/metrics.ts: merge the weights,
compute the five sub-scores, aggregate the raw weighted sum, and emit the
clamped result with diagnostics; the requirements diagnostic is the
comma-joined requirement list. -/
noncomputable def calculateMetrics (response prompt : String)
    (weights : PartialWeights) : ResponseMetrics :=
  let w := mergeWeights weights
  let coherence := calculateCoherenceScore response
  let length := calculateLengthScore response prompt
  let vocab := calculateVocabularyRichness response
  let repetition := repetitionPenaltyScore response
  let reqs := extractRequirements prompt
  let readability := readabilityScoreOf response
  let weighted : ℝ :=
    (coherence : ℝ) * (w.coherence : ℝ) + length * (w.length : ℝ) +
      vocab * (w.vocab : ℝ) + (repetition : ℝ) * (w.repetition : ℝ) +
      (readability.1 : ℝ) * (w.readability : ℝ)
  let overall : ℤ := clamp0to100 (jsRound (weighted * 100))
  { coherenceScore := clamp01 coherence
    lengthScore := clamp01 length
    vocabularyRichnessScore := clamp01 vocab
    repetitionPenalty := clamp01 repetition
    readabilityScore := clamp01 readability.1
    overallScore := overall
    details :=
      { sentenceCount := (sentences response).length
        wordCount := (tokenizeWords response).length
        requirements := ReqDiag.str (String.intercalate ", " reqs)
        fkGrade := readability.2 } }

/-- calculateMetrics from the duplicated unnamed module: identical to the
module under src except that the requirements diagnostic is the raw
requirement list instead of the comma-joined string. -/
noncomputable def calculateMetricsDup (response prompt : String)
    (weights : PartialWeights) : ResponseMetrics :=
  let w := mergeWeights weights
  let coherence := calculateCoherenceScore response
  let length := calculateLengthScore response prompt
  let vocab := calculateVocabularyRichness response
  let repetition := repetitionPenaltyScore response
  let reqs := extractRequirements prompt
  let readability := readabilityScoreOf response
  let weighted : ℝ :=
    (coherence : ℝ) * (w.coherence : ℝ) + length * (w.length : ℝ) +
      vocab * (w.vocab : ℝ) + (repetition : ℝ) * (w.repetition : ℝ) +
      (readability.1 : ℝ) * (w.readability : ℝ)
  let overall : ℤ := clamp0to100 (jsRound (weighted * 100))
  { coherenceScore := clamp01 coherence
    lengthScore := clamp01 length
    vocabularyRichnessScore := clamp01 vocab
    repetitionPenalty := clamp01 repetition
    readabilityScore := clamp01 readability.1
    overallScore := overall
    details :=
      { sentenceCount := (sentences response).length
        wordCount := (tokenizeWords response).length
        requirements := ReqDiag.strList reqs
        fkGrade := readability.2 } }

/-- A clamped sub-score is nonnegative. -/
theorem clamp01_nonneg {α : Type} [LinearOrderedField α] (x : α) :
    0 ≤ clamp01 x :=
  le_max_left 0 _

/-- A clamped sub-score is at most one. -/
theorem clamp01_le_one {α : Type} [LinearOrderedField α] (x : α) :
    clamp01 x ≤ 1 :=
  max_le zero_le_one (min_le_left 1 x)

/-- The clamped overall score is nonnegative. -/
theorem clamp0to100_nonneg (x : ℤ) : 0 ≤ clamp0to100 x :=
  le_max_left 0 _

/-- The clamped overall score is at most one hundred. -/
theorem clamp0to100_le (x : ℤ) : clamp0to100 x ≤ 100 :=
  max_le (by norm_num) (min_le_left 100 x)

/-- C1: for every response, prompt and partial weight map, each of the
five sub-scores of the returned result lies in the closed interval from 0
to 1, and the overall score is an integer (it has type int in the model)
lying in the closed interval from 0 to 100. -/
theorem calculateMetrics_range (r p : String) (w : PartialWeights) :
    (0 ≤ (calculateMetrics r p w).coherenceScore ∧
      (calculateMetrics r p w).coherenceScore ≤ 1) ∧
    (0 ≤ (calculateMetrics r p w).lengthScore ∧
      (calculateMetrics r p w).lengthScore ≤ 1) ∧
    (0 ≤ (calculateMetrics r p w).vocabularyRichnessScore ∧
      (calculateMetrics r p w).vocabularyRichnessScore ≤ 1) ∧
    (0 ≤ (calculateMetrics r p w).repetitionPenalty ∧
      (calculateMetrics r p w).repetitionPenalty ≤ 1) ∧
    (0 ≤ (calculateMetrics r p w).readabilityScore ∧
      (calculateMetrics r p w).readabilityScore ≤ 1) ∧
    (0 ≤ (calculateMetrics r p w).overallScore ∧
      (calculateMetrics r p w).overallScore ≤ 100) :=
  ⟨⟨clamp01_nonneg _, clamp01_le_one _⟩,
   ⟨clamp01_nonneg _, clamp01_le_one _⟩,
   ⟨clamp01_nonneg _, clamp01_le_one _⟩,
   ⟨clamp01_nonneg _, clamp01_le_one _⟩,
   ⟨clamp01_nonneg _, clamp01_le_one _⟩,
   ⟨clamp0to100_nonneg _, clamp0to100_le _⟩⟩

/-- C2: the effective weights are the default table with exactly the keys
present in the overrides replaced (no normalization), and the overall
score is the rounded, clamped weighted sum of the raw sub-scores scaled
by 100. -/
theorem calculateMetrics_overall_aggregation (r p : String) (ov : PartialWeights) :
    mergeWeights ov =
      ⟨ov.coherence.getD 0.3, ov.length.getD 0.2, ov.vocab.getD 0.25,
       ov.repetition.getD 0.1, ov.readability.getD 0.15⟩ ∧
    (calculateMetrics r p ov).overallScore =
      clamp0to100 (jsRound
        (((calculateCoherenceScore r : ℝ) * ((mergeWeights ov).coherence : ℝ) +
          calculateLengthScore r p * ((mergeWeights ov).length : ℝ) +
          calculateVocabularyRichness r * ((mergeWeights ov).vocab : ℝ) +
          (repetitionPenaltyScore r : ℝ) * ((mergeWeights ov).repetition : ℝ) +
          ((readabilityScoreOf r).1 : ℝ) * ((mergeWeights ov).readability : ℝ)) * 100)) :=
  ⟨rfl, rfl⟩

/-- C3: the scoring engine is deterministic; two invocations on the same
arguments yield the same result record, hence equal sub-scores, overall
score, and diagnostics.  In this embedding the engine is a pure function,
so determinism is definitional. -/
theorem calculateMetrics_deterministic (r p : String) (w : PartialWeights) :
    calculateMetrics r p w = calculateMetrics r p w :=
  rfl

/-- C4 counterexample: the two duplicated implementations do not return
equal diagnostics records; on the empty response with prompt p, the
module under src stores the joined requirements string while the
duplicated module stores the raw list. -/
theorem duplicate_details_differ :
    (calculateMetrics "" "p" emptyWeights).details ≠
      (calculateMetricsDup "" "p" emptyWeights).details := by
  decide

/-- C4 amended: the two duplicated implementations agree on all five
sub-scores, the overall score, and the sentence-count, word-count and
grade diagnostics; they differ only in the representation of the
requirements diagnostic, where the module under src stores the
comma-joined string of the list the duplicated module stores. -/
theorem duplicate_modules_agree (r p : String) (w : PartialWeights) :
    (calculateMetrics r p w).coherenceScore = (calculateMetricsDup r p w).coherenceScore ∧
    (calculateMetrics r p w).lengthScore = (calculateMetricsDup r p w).lengthScore ∧
    (calculateMetrics r p w).vocabularyRichnessScore =
      (calculateMetricsDup r p w).vocabularyRichnessScore ∧
    (calculateMetrics r p w).repetitionPenalty = (calculateMetricsDup r p w).repetitionPenalty ∧
    (calculateMetrics r p w).readabilityScore = (calculateMetricsDup r p w).readabilityScore ∧
    (calculateMetrics r p w).overallScore = (calculateMetricsDup r p w).overallScore ∧
    (calculateMetrics r p w).details.sentenceCount =
      (calculateMetricsDup r p w).details.sentenceCount ∧
    (calculateMetrics r p w).details.wordCount =
      (calculateMetricsDup r p w).details.wordCount ∧
    (calculateMetrics r p w).details.fkGrade = (calculateMetricsDup r p w).details.fkGrade ∧
    (calculateMetrics r p w).details.requirements =
      ReqDiag.str (String.intercalate ", " (extractRequirements p)) ∧
    (calculateMetricsDup r p w).details.requirements =
      ReqDiag.strList (extractRequirements p) :=
  ⟨rfl, rfl, rfl, rfl, rfl, rfl, rfl, rfl, rfl, rfl, rfl⟩

/-- C5: on the empty response, for every prompt and weight map, the
length score and the vocabulary richness score of the result are zero. -/
theorem empty_response_zero_scores (p : String) (w : PartialWeights) :
    (calculateMetrics "" p w).lengthScore = 0 ∧
    (calculateMetrics "" p w).vocabularyRichnessScore = 0 := by
  constructor
  · show clamp01 (calculateLengthScore "" p) = 0
    have ht : calculateLengthScore "" p = 0 := by
      unfold calculateLengthScore
      norm_num [show tokenizeWords "" = [] from rfl]
    rw [ht]
    norm_num [clamp01]
  · show clamp01 (calculateVocabularyRichness "") = 0
    have hv : calculateVocabularyRichness "" = 0 := by
      unfold calculateVocabularyRichness
      norm_num [show tokenizeWords "" = [] from rfl, contentWords]
    rw [hv]
    norm_num [clamp01]

/-- C6: when the prompt extracts more than ten requirements, the
length-fit target is computed with the count capped at ten, so it equals
700 and differs from the uncapped value. -/
theorem lengthTarget_req_capped (p : String)
    (h : 10 < (extractRequirements p).length) :
    lengthTarget p = 700 ∧
    max 60 (min 1200 (100 + 60 * ((extractRequirements p).length : ℚ))) ≠ 700 := by
  have hq : (10 : ℚ) ≤ ((extractRequirements p).length : ℚ) := by
    exact_mod_cast le_of_lt h
  have h11 : (11 : ℚ) ≤ ((extractRequirements p).length : ℚ) := by
    exact_mod_cast h
  constructor
  · have hne : ¬(extractRequirements p).length = 0 := by omega
    simp only [lengthTarget]
    rw [if_neg hne, min_eq_left hq]
    rw [show (100 : ℚ) + 60 * 10 = 700 from by norm_num]
    rw [min_eq_right (by norm_num : (700 : ℚ) ≤ 1200)]
    rw [max_eq_right (by norm_num : (60 : ℚ) ≤ 700)]
  · have hx : (760 : ℚ) ≤ min 1200 (100 + 60 * ((extractRequirements p).length : ℚ)) :=
      le_min (by norm_num) (by linarith)
    have hy : (760 : ℚ) ≤ max 60 (min 1200 (100 + 60 * ((extractRequirements p).length : ℚ))) :=
      hx.trans (le_max_right _ _)
    intro hc
    rw [hc] at hy
    norm_num at hy

/-- C6 witness: a prompt of twenty bullet lines yields twenty extracted
requirements and a length-fit target of 700. -/
theorem lengthTarget_req_capped_witness :
    10 < (extractRequirements
      "- a\n- b\n- c\n- d\n- e\n- f\n- g\n- h\n- i\n- j\n- k\n- l\n- m\n- n\n- o\n- p\n- q\n- r\n- s\n- t").length ∧
    lengthTarget
      "- a\n- b\n- c\n- d\n- e\n- f\n- g\n- h\n- i\n- j\n- k\n- l\n- m\n- n\n- o\n- p\n- q\n- r\n- s\n- t" = 700 :=
  ⟨by decide,
   (lengthTarget_req_capped
      "- a\n- b\n- c\n- d\n- e\n- f\n- g\n- h\n- i\n- j\n- k\n- l\n- m\n- n\n- o\n- p\n- q\n- r\n- s\n- t"
      (by decide)).1⟩

/-- C7: a response of fewer than six word tokens gets repetition penalty
score exactly one, and this value, clamped, is the repetition penalty
field of the result for every prompt and weight map. -/
theorem short_response_repetition_one (r : String)
    (h : (tokenizeWords r).length < 6) :
    repetitionPenaltyScore r = 1 ∧
    ∀ (p : String) (w : PartialWeights),
      (calculateMetrics r p w).repetitionPenalty = 1 := by
  have h1 : repetitionPenaltyScore r = 1 := by
    unfold repetitionPenaltyScore
    rw [if_pos h]
  refine ⟨h1, fun p w => ?_⟩
  show clamp01 (repetitionPenaltyScore r) = 1
  rw [h1]
  norm_num [clamp01]

/-- C7 witness: a two-word response has repetition penalty one, also in
the result record. -/
theorem short_response_repetition_one_witness :
    (tokenizeWords "hi there").length < 6 ∧
    repetitionPenaltyScore "hi there" = 1 ∧
    (calculateMetrics "hi there" "x" emptyWeights).repetitionPenalty = 1 :=
  ⟨by decide, (short_response_repetition_one "hi there" (by decide)).1,
   (short_response_repetition_one "hi there" (by decide)).2 "x" emptyWeights⟩

/-- C8: the bare tokens for the word in and the word conclusion belong to
the transition lexicon; for a text of at least two sentences, every
sentence containing one of them as a word token counts as a transition
sentence, and the transition score is the transition sentence count
divided by one less than the sentence count, capped at one. -/
theorem transition_lexicon_contains_in (text : String)
    (h : 2 ≤ (sentences text).length) :
    "in" ∈ transLex ∧ "conclusion" ∈ transLex ∧
    (∀ s ∈ sentences text,
      ("in" ∈ tokenizeWords s ∨ "conclusion" ∈ tokenizeWords s) →
        isTransitionSentence s = true) ∧
    transScoreOf (sentences text) =
      min 1 ((transCount (sentences text) : ℚ) /
        (((sentences text).length : ℚ) - 1)) := by
  refine ⟨by decide, by decide, ?_, ?_⟩
  · intro s hs hmem
    unfold isTransitionSentence
    rw [List.any_eq_true]
    rcases hmem with hm | hm
    · exact ⟨"in", hm, by decide⟩
    · exact ⟨"conclusion", hm, by decide⟩
  · unfold transScoreOf
    have h2 : (2 : ℚ) ≤ ((sentences text).length : ℚ) := by exact_mod_cast h
    rw [max_eq_right (by linarith)]

/-- C8 witness: a two-sentence text whose second sentence contains the
word in; the transition score formula applies with the max eliminated. -/
theorem transition_lexicon_contains_in_witness :
    2 ≤ (sentences "Therefore it runs. It is in the box.").length ∧
    transScoreOf (sentences "Therefore it runs. It is in the box.") =
      min 1 ((transCount (sentences "Therefore it runs. It is in the box.") : ℚ) /
        (((sentences "Therefore it runs. It is in the box.").length : ℚ) - 1)) :=
  ⟨by decide,
   (transition_lexicon_contains_in "Therefore it runs. It is in the box."
      (by decide)).2.2.2⟩

/-- C9: the response consisting of the single word hello followed by a
period has one word, one sentence and two syllables, a raw grade of
exactly 8.4 exposed unclamped in the diagnostics, and a readability score
within 0.01 of 0.733, for every prompt and weight map. -/
theorem readability_hello_example (p : String) (w : PartialWeights) :
    (tokenizeWords "Hello.").length = 1 ∧
    (sentences "Hello.").length = 1 ∧
    ((tokenizeWords "Hello.").map syllableCount).sum = 2 ∧
    fkGradeOf "Hello." = 0.39 + 23.6 - 15.59 ∧
    fkGradeOf "Hello." = 8.4 ∧
    (calculateMetrics "Hello." p w).details.fkGrade = 8.4 ∧
    |(calculateMetrics "Hello." p w).readabilityScore - 0.733| ≤ 0.01 := by
  have ht : tokenizeWords "Hello." = ["hello"] := by decide
  have hs : sentences "Hello." = ["Hello."] := by decide
  have hsyl : syllableCount "hello" = 2 := by decide
  have hg : fkGradeOf "Hello." = 8.4 := by
    simp only [fkGradeOf]
    rw [ht, hs]
    norm_num [hsyl, List.map_cons, List.map_nil, List.sum_cons, List.sum_nil]
  have habs : |(8.4 : ℚ) - 10| = 1.6 := by
    rw [abs_of_nonpos (by norm_num)]
    norm_num
  have hread : (readabilityScoreOf "Hello.").1 = 11 / 15 := by
    show clamp01 (1 - min 1 (|fkGradeOf "Hello." - 10| / 6)) = 11 / 15
    rw [hg, habs]
    rw [show (1.6 : ℚ) / 6 = 4 / 15 from by norm_num]
    rw [min_eq_right (by norm_num : (4 : ℚ) / 15 ≤ 1)]
    simp only [clamp01]
    rw [show (1 : ℚ) - 4 / 15 = 11 / 15 from by norm_num]
    rw [min_eq_right (by norm_num : (11 : ℚ) / 15 ≤ 1)]
    rw [max_eq_right (by norm_num : (0 : ℚ) ≤ 11 / 15)]
  refine ⟨by decide, by decide, by decide, ?_, hg, ?_, ?_⟩
  · rw [hg]
    norm_num
  · exact hg
  · have hfield : (calculateMetrics "Hello." p w).readabilityScore = 11 / 15 := by
      show clamp01 (readabilityScoreOf "Hello.").1 = 11 / 15
      rw [hread]
      simp only [clamp01]
      rw [min_eq_right (by norm_num : (11 : ℚ) / 15 ≤ 1)]
      rw [max_eq_right (by norm_num : (0 : ℚ) ≤ 11 / 15)]
    rw [hfield]
    rw [abs_of_nonneg (by norm_num : (0 : ℚ) ≤ 11 / 15 - 0.733)]
    norm_num

/-- C10: the weights influence only the overall score; results for the
same response and prompt under any two weight maps agree on all five
sub-score fields and on the whole diagnostics record. -/
theorem weights_only_affect_overall (r p : String) (w1 w2 : PartialWeights) :
    (calculateMetrics r p w1).coherenceScore = (calculateMetrics r p w2).coherenceScore ∧
    (calculateMetrics r p w1).lengthScore = (calculateMetrics r p w2).lengthScore ∧
    (calculateMetrics r p w1).vocabularyRichnessScore =
      (calculateMetrics r p w2).vocabularyRichnessScore ∧
    (calculateMetrics r p w1).repetitionPenalty = (calculateMetrics r p w2).repetitionPenalty ∧
    (calculateMetrics r p w1).readabilityScore = (calculateMetrics r p w2).readabilityScore ∧
    (calculateMetrics r p w1).details = (calculateMetrics r p w2).details :=
  ⟨rfl, rfl, rfl, rfl, rfl, rfl⟩
